import Mathlib

/-!
Verification of the Mindwell core against its specification.

The development shallowly embeds the two core components:

* the response engine of `chatbot.js` (`MentalHealthChatbot`): crisis
  detection, keyword intent recognition, localized reply tables with
  double fallback, and reply selection from fixed pools; and
* the data manager of `data-manager.js` (`DataManager`): the streak
  transaction, mood statistics, export/import and the input records.

JavaScript strings are modelled by `String` with explicit character-list
operations (`toLowerCase` as an ASCII character map, `trim`, substring
containment via list infixes).  JavaScript numbers are modelled by `ℚ`,
with `Option ℚ` (`JNum`) where `undefined`/`NaN` can flow through
arithmetic; IEEE rounding of `/` is not modelled (arithmetic is exact).
`Math.random()` is modelled as a supplied rational `r` with `0 ≤ r < 1`,
and `Math.floor(r * n)` as `(⌊r * n⌋).toNat`.  Mutation is modelled by
explicit state passing; clock and id generation are parameters
(`now`, `today`, `yesterday`, `genId`).  Reply objects are a record whose
optional fields are `Option`s (`none` = property absent), and a reply
text of `none` models the JavaScript value `undefined`.
-/

namespace Mindwell

/-! ## JavaScript string primitives -/

/-- The whitespace characters relevant to `String.prototype.trim` that occur
in this code base (space, tab, line feed, carriage return). -/
def isJsWhitespace (c : Char) : Bool :=
  c == ' ' || c == '\t' || c == '\n' || c == '\r'

/-- `toLowerCase` as a character-wise map (exact on the ASCII inputs the
engine compares against). -/
def lowerStr (s : String) : String :=
  ⟨s.data.map Char.toLower⟩

/-- `trim` on character lists: drop whitespace from both ends. -/
def trimChars (l : List Char) : List Char :=
  ((l.dropWhile isJsWhitespace).reverse.dropWhile isJsWhitespace).reverse

/-- `String.prototype.trim`. -/
def trimStr (s : String) : String :=
  ⟨trimChars s.data⟩

/-- `s.includes(sub)`: substring containment. -/
def jsIncludes (s sub : String) : Bool :=
  decide (sub.data <:+: s.data)

/-- `userMessage.toLowerCase().trim()` as performed at the top of
`generateResponse`. -/
def processMessage (userMessage : String) : String :=
  trimStr (lowerStr userMessage)

/-! ## Translation tables (`initializeTranslations`, `getTranslation`)

A translation value is either an array of strings or a nested table; a
table entry that is absent models the JavaScript `undefined` (falsy)
lookup result.  Intrinsic properties of arrays (such as `length`) and
numeric indexing of arrays are not modelled: the engine only ever walks
tables by their declared keys. -/

inductive TransVal where
  | strs (ss : List String)
  | table (es : List (String × TransVal))

abbrev TransTable := List (String × TransVal)

/-- Property read `obj[k]` on a table, `none` when absent (falsy). -/
def lookupTable (es : TransTable) (k : String) : Option TransVal :=
  (es.find? (fun e => e.1 == k)).map (fun e => e.2)

/-- `translation[k]` for a translation value. -/
def tvGet : TransVal → String → Option TransVal
  | TransVal.strs _, _ => none
  | TransVal.table es, k => lookupTable es k

/-- `key.split('.')` on character lists: never returns the empty list. -/
def splitDot : List Char → List (List Char)
  | [] => [[]]
  | c :: cs =>
    if c = '.' then [] :: splitDot cs
    else
      match splitDot cs with
      | [] => [[c]]
      | k :: ks => (c :: k) :: ks

/-- The dotted key split into its components. -/
def splitKeys (key : String) : List String :=
  (splitDot key.data).map (fun l => ⟨l⟩)

/-- The inner fallback loop of `getTranslation`: re-walk the full key list
over the English table, returning the literal key on any failure.  The
`[]`/`none` case is unreachable from `getTranslation` (the key list from
`split` is never empty). -/
def fallbackWalk (key : String) : Option TransVal → List String → TransVal ⊕ String
  | t, [] =>
    match t with
    | some v => Sum.inl v
    | none => Sum.inr key
  | t, k :: ks =>
    match t.bind (fun tv => tvGet tv k) with
    | some v => fallbackWalk key (some v) ks
    | none => Sum.inr key

/-- The outer loop of `getTranslation`: walk the current language's table;
on the first failed step switch to the English fallback over the full key
list. -/
def transLoop (tr : TransTable) (key : String) (allKeys : List String) :
    Option TransVal → List String → TransVal ⊕ String
  | t, [] =>
    match t with
    | some v => Sum.inl v
    | none => Sum.inr key
  | t, k :: ks =>
    match t.bind (fun tv => tvGet tv k) with
    | some v => transLoop tr key allKeys (some v) ks
    | none => fallbackWalk key (lookupTable tr "en") allKeys

/-- `getTranslation(key)` for a given translation table and current
language: `Sum.inl` is a found translation value, `Sum.inr` the literal
key string returned when both lookups fail. -/
def getTranslation (tr : TransTable) (currentLanguage : String) (key : String) :
    TransVal ⊕ String :=
  transLoop tr key (splitKeys key) (lookupTable tr currentLanguage) (splitKeys key)

/-- Straight-line resolution of a key path, `none` on any failed step.
Used to state the double-fallback contract. -/
def resolvePath : Option TransVal → List String → Option TransVal
  | t, [] => t
  | t, k :: ks =>
    match t.bind (fun tv => tvGet tv k) with
    | some v => resolvePath (some v) ks
    | none => none

/-! ### The literal translation data of `initializeTranslations` -/

def enGreetings : List String :=
  ["Hello! I'm so glad you're here. How are you feeling today?",
   "Hi there! I'm your mental health companion. What's on your mind?",
   "Welcome! I'm here to listen and support you. How can I help today?",
   "Hello! It's great to see you. How are you doing right now?"]

def enMoodPositive : List String :=
  ["That's wonderful to hear! I'm so glad you're feeling good. What's contributing to this positive mood?",
   "It makes me happy to know you're feeling well! Can you tell me more about what's going well for you?",
   "That's fantastic! Positive moments like these are so important. What helped you feel this way?"]

def enMoodNegative : List String :=
  ["I'm sorry you're feeling this way. Your feelings are completely valid. Can you tell me more about what's going on?",
   "I hear that you're struggling right now. That must be really difficult. I'm here to listen and support you.",
   "Thank you for sharing how you're feeling. It takes courage to be open about difficult emotions. What's been weighing on you?"]

def enMoodNeutral : List String :=
  ["I understand you're feeling neutral right now. Sometimes that's exactly what we need. How has your day been overall?",
   "Neutral feelings are completely normal. Sometimes we need to just be where we are. What's been on your mind lately?"]

def enGeneral : List String :=
  ["I'm here to listen and support you. Can you tell me more about what's on your mind?",
   "Thank you for sharing with me. I want to understand better—what's been challenging for you lately?",
   "I'm listening. Sometimes it helps to talk through what we're experiencing. What's been weighing on you?",
   "I'm here for you. What would be most helpful for you right now?"]
def hiGreetings : List String :=
  ["नमस्ते! मुझे खुशी है कि आप यहाँ हैं। आज आप कैसा महसूस कर रहे हैं?",
   "हैलो! मैं आपका मानसिक स्वास्थ्य साथी हूँ। आपके मन में क्या है?",
   "स्वागत है! मैं यहाँ आपकी सुनने और सहायता करने के लिए हूँ। आज मैं कैसे मदद कर सकता हूँ?",
   "नमस्ते! आपको देखकर बहुत अच्छा लगा। अभी आप कैसे हैं?"]

def hiMoodPositive : List String :=
  ["यह सुनकर बहुत अच्छा लगा! मुझे खुशी है कि आप अच्छा महसूस कर रहे हैं। इस सकारात्मक मूड में क्या योगदान दे रहा है?",
   "यह जानकर खुशी हुई कि आप अच्छा महसूस कर रहे हैं! क्या आप मुझे बता सकते हैं कि आपके लिए क्या अच्छा चल रहा है?",
   "यह शानदार है! ऐसे सकारात्मक पल बहुत महत्वपूर्ण हैं। आपको ऐसा महसूस कराने में क्या मदद की?"]

def hiMoodNegative : List String :=
  ["मुझे खेद है कि आप ऐसा महसूस कर रहे हैं। आपकी भावनाएं पूरी तरह वैध हैं। क्या आप मुझे बता सकते हैं कि क्या चल रहा है?",
   "मैं सुन रहा हूँ कि आप अभी संघर्ष कर रहे हैं। यह वास्तव में मुश्किल होना चाहिए। मैं यहाँ आपकी सुनने और सहायता करने के लिए हूँ।",
   "आपकी भावनाओं को साझा करने के लिए धन्यवाद। कठिन भावनाओं के बारे में खुलकर बात करने में साहस लगता है। आप पर क्या भारी पड़ रहा है?"]

def hiMoodNeutral : List String :=
  ["मैं समझता हूँ कि आप अभी तटस्थ महसूस कर रहे हैं। कभी-कभी यही वह चीज़ होती है जिसकी हमें जरूरत होती है। आपका दिन कैसा रहा है?",
   "तटस्थ भावनाएं पूरी तरह सामान्य हैं। कभी-कभी हमें बस वहीं रहना चाहिए जहाँ हम हैं। हाल ही में आपके मन में क्या रहा है?"]

def hiGeneral : List String :=
  ["मैं यहाँ आपकी सुनने और सहायता करने के लिए हूँ। क्या आप मुझे बता सकते हैं कि आपके मन में क्या है?",
   "मेरे साथ साझा करने के लिए धन्यवाद। मैं बेहतर समझना चाहता हूँ—हाल ही में आपके लिए क्या चुनौतीपूर्ण रहा है?",
   "मैं सुन रहा हूँ। कभी-कभी जो हम अनुभव कर रहे हैं उसके बारे में बात करना मदद करता है। आप पर क्या भारी पड़ रहा है?",
   "मैं आपके लिए यहाँ हूँ। अभी आपके लिए क्या सबसे मददगार होगा?"]

def mrGreetings : List String :=
  ["नमस्कार! मला आनंद आहे की तुम्ही इथे आहात. आज तुम्हाला कसे वाटत आहे?",
   "हॅलो! मी तुमचा मानसिक आरोग्य साथी आहे. तुमच्या मनात काय आहे?",
   "स्वागत! मी तुमचे ऐकणे आणि मदत करण्यासाठी इथे आहे. आज मी कशी मदत करू शकतो?",
   "नमस्कार! तुम्हाला बघून खूप छान वाटले. आत्ता तुम्ही कसे आहात?"]

def mrMoodPositive : List String :=
  ["हे ऐकून खूप छान वाटले! मला आनंद आहे की तुम्ही चांगले वाटत आहात. या सकारात्मक मूडमध्ये काय योगदान देत आहे?",
   "तुम्ही चांगले वाटत आहात हे जाणून आनंद झाला! तुम्ही मला सांगू शकता की तुमच्यासाठी काय चांगले चालत आहे?",
   "हे अप्रतिम आहे! अशे सकारात्मक क्षण खूप महत्वाचे आहेत. तुम्हाला असे वाटण्यात काय मदत केली?"]

def mrMoodNegative : List String :=
  ["मला वाईट वाटत आहे की तुम्हाला असे वाटत आहे. तुमच्या भावना पूर्णपणे वैध आहेत. तुम्ही मला सांगू शकता की काय चालत आहे?",
   "मी ऐकत आहे की तुम्ही आत्ता संघर्ष करत आहात. हे खरोखर कठीण असावे. मी तुमचे ऐकणे आणि मदत करण्यासाठी इथे आहे.",
   "तुमच्या भावना सामायिक केल्याबद्दल धन्यवाद. कठीण भावनांबद्दल उघडपणे बोलण्यासाठी धैर्य लागते. तुमच्यावर काय भारी पडत आहे?"]

def mrMoodNeutral : List String :=
  ["मी समजतो की तुम्ही आत्ता तटस्थ वाटत आहात. कधीकधी हेच आवश्यक असते. तुमचा दिवस कसा गेला?",
   "तटस्थ भावना पूर्णपणे सामान्य आहेत. कधीकधी आपल्याला फक्त जिथे आहात तिथेच रहावे लागते. अलीकडे तुमच्या मनात काय आहे?"]

def mrGeneral : List String :=
  ["मी तुमचे ऐकणे आणि मदत करण्यासाठी इथे आहे. तुम्ही मला सांगू शकता की तुमच्या मनात काय आहे?",
   "माझ्याशी सामायिक केल्याबद्दल धन्यवाद. मला चांगले समजायचे आहे—अलीकडे तुमच्यासाठी काय आव्हानात्मक राहिले आहे?",
   "मी ऐकत आहे. कधीकधी आपण जे अनुभवत आहोत त्याबद्दल बोलणे मदत करते. तुमच्यावर काय भारी पडत आहे?",
   "मी तुमच्यासाठी इथे आहे. आत्ता तुमच्यासाठी काय सर्वात उपयुक्त असेल?"]

def knGreetings : List String :=
  ["ನಮಸ್ಕಾರ! ನೀವು ಇಲ್ಲಿದ್ದೀರಿ ಎಂದು ನನಗೆ ಸಂತೋಷವಾಗಿದೆ. ಇಂದು ನಿಮಗೆ ಹೇಗೆ ಅನಿಸುತ್ತಿದೆ?",
   "ಹಲೋ! ನಾನು ನಿಮ್ಮ ಮಾನಸಿಕ ಆರೋಗ್ಯ ಸಹಚರ. ನಿಮ್ಮ ಮನಸ್ಸಿನಲ್ಲಿ ಏನಿದೆ?",
   "ಸ್ವಾಗತ! ನಿಮ್ಮನ್ನು ಕೇಳಲು ಮತ್ತು ಬೆಂಬಲಿಸಲು ನಾನು ಇಲ್ಲಿದ್ದೇನೆ. ಇಂದು ನಾನು ಹೇಗೆ ಸಹಾಯ ಮಾಡಬಹುದು?",
   "ನಮಸ್ಕಾರ! ನಿಮ್ಮನ್ನು ನೋಡಿ ತುಂಬಾ ಚೆನ್ನಾಗಿದೆ. ಇದೀಗ ನೀವು ಹೇಗಿದ್ದೀರಿ?"]

def knMoodPositive : List String :=
  ["ಇದನ್ನು ಕೇಳಿ ತುಂಬಾ ಚೆನ್ನಾಗಿದೆ! ನೀವು ಚೆನ್ನಾಗಿ ಅನಿಸುತ್ತಿದ್ದೀರಿ ಎಂದು ನನಗೆ ಸಂತೋಷವಾಗಿದೆ. ಈ ಧನಾತ್ಮಕ ಮನಸ್ಥಿತಿಗೆ ಏನು ಕೊಡುಗೆ ನೀಡುತ್ತಿದೆ?",
   "ನೀವು ಚೆನ್ನಾಗಿ ಅನಿಸುತ್ತಿದ್ದೀರಿ ಎಂದು ತಿಳಿದು ಸಂತೋಷವಾಗಿದೆ! ನಿಮಗೆ ಏನು ಚೆನ್ನಾಗಿ ನಡೆಯುತ್ತಿದೆ ಎಂಬುದನ್ನು ನೀವು ನನಗೆ ಹೆಚ್ಚು ಹೇಳಬಹುದೇ?",
   "ಇದು ಅದ್ಭುತವಾಗಿದೆ! ಇಂತಹ ಧನಾತ್ಮಕ ಕ್ಷಣಗಳು ತುಂಬಾ ಮುಖ್ಯವಾಗಿವೆ. ನಿಮಗೆ ಈ ರೀತಿ ಅನಿಸುವುದಕ್ಕೆ ಏನು ಸಹಾಯ ಮಾಡಿತು?"]

def knMoodNegative : List String :=
  ["ನೀವು ಈ ರೀತಿ ಅನಿಸುತ್ತಿದ್ದೀರಿ ಎಂದು ನನಗೆ ವಿಷಾದವಾಗಿದೆ. ನಿಮ್ಮ ಭಾವನೆಗಳು ಸಂಪೂರ್ಣವಾಗಿ ಮಾನ್ಯವಾಗಿವೆ. ಏನು ನಡೆಯುತ್ತಿದೆ ಎಂಬುದನ್ನು ನೀವು ನನಗೆ ಹೆಚ್ಚು ಹೇಳಬಹುದೇ?",
   "ನೀವು ಇದೀಗ ಹೋರಾಟ ನಡೆಸುತ್ತಿದ್ದೀರಿ ಎಂದು ನಾನು ಕೇಳುತ್ತಿದ್ದೇನೆ. ಇದು ನಿಜವಾಗಿಯೂ ಕಷ್ಟವಾಗಿರಬೇಕು. ನಿಮ್ಮನ್ನು ಕೇಳಲು ಮತ್ತು ಬೆಂಬಲಿಸಲು ನಾನು ಇಲ್ಲಿದ್ದೇನೆ.",
   "ನಿಮ್ಮ ಭಾವನೆಗಳನ್ನು ಹಂಚಿಕೊಂಡಿದ್ದಕ್ಕಾಗಿ ಧನ್ಯವಾದಗಳು. ಕಷ್ಟಕರ ಭಾವನೆಗಳ ಬಗ್ಗೆ ತೆರೆದುಕೊಂಡು ಮಾತನಾಡಲು ಧೈರ್ಯ ಬೇಕು. ನಿಮ್ಮ ಮೇಲೆ ಏನು ಭಾರವಾಗಿದೆ?"]

def knMoodNeutral : List String :=
  ["ನೀವು ಇದೀಗ ತಟಸ್ಥವಾಗಿ ಅನಿಸುತ್ತಿದ್ದೀರಿ ಎಂದು ನಾನು ಅರ್ಥಮಾಡಿಕೊಂಡಿದ್ದೇನೆ. ಕೆಲವೊಮ್ಮೆ ಇದು ನಮಗೆ ಬೇಕಾದುದೇ. ನಿಮ್ಮ ದಿನ ಹೇಗಿತ್ತು?",
   "ತಟಸ್ಥ ಭಾವನೆಗಳು ಸಂಪೂರ್ಣವಾಗಿ ಸಾಮಾನ್ಯವಾಗಿವೆ. ಕೆಲವೊಮ್ಮೆ ನಾವು ಇರುವಲ್ಲೇ ಇರಬೇಕು. ಇತ್ತೀಚೆಗೆ ನಿಮ್ಮ ಮನಸ್ಸಿನಲ್ಲಿ ಏನಿದೆ?"]

def knGeneral : List String :=
  ["ನಿಮ್ಮನ್ನು ಕೇಳಲು ಮತ್ತು ಬೆಂಬಲಿಸಲು ನಾನು ಇಲ್ಲಿದ್ದೇನೆ. ನಿಮ್ಮ ಮನಸ್ಸಿನಲ್ಲಿ ಏನಿದೆ ಎಂಬುದನ್ನು ನೀವು ನನಗೆ ಹೆಚ್ಚು ಹೇಳಬಹುದೇ?",
   "ನನ್ನೊಂದಿಗೆ ಹಂಚಿಕೊಂಡಿದ್ದಕ್ಕಾಗಿ ಧನ್ಯವಾದಗಳು. ನಾನು ಚೆನ್ನಾಗಿ ಅರ್ಥಮಾಡಿಕೊಳ್ಳಲು ಬಯಸುತ್ತೇನೆ—ಇತ್ತೀಚೆಗೆ ನಿಮಗೆ ಏನು ಸವಾಲಾಗಿದೆ?",
   "ನಾನು ಕೇಳುತ್ತಿದ್ದೇನೆ. ಕೆಲವೊಮ್ಮೆ ನಾವು ಅನುಭವಿಸುತ್ತಿರುವುದರ ಬಗ್ಗೆ ಮಾತನಾಡುವುದು ಸಹಾಯಕವಾಗುತ್ತದೆ. ನಿಮ್ಮ ಮೇಲೆ ಏನು ಭಾರವಾಗಿದೆ?",
   "ನಾನು ನಿಮಗಾಗಿ ಇಲ್ಲಿದ್ದೇನೆ. ಇದೀಗ ನಿಮಗೆ ಏನು ಹೆಚ್ಚು ಸಹಾಯಕವಾಗುತ್ತದೆ?"]

def enTable : TransVal :=
  TransVal.table
    [("greetings", TransVal.strs enGreetings),
     ("mood_positive", TransVal.strs enMoodPositive),
     ("mood_negative", TransVal.strs enMoodNegative),
     ("mood_neutral", TransVal.strs enMoodNeutral),
     ("general", TransVal.strs enGeneral)]

def hiTable : TransVal :=
  TransVal.table
    [("greetings", TransVal.strs hiGreetings),
     ("mood_positive", TransVal.strs hiMoodPositive),
     ("mood_negative", TransVal.strs hiMoodNegative),
     ("mood_neutral", TransVal.strs hiMoodNeutral),
     ("general", TransVal.strs hiGeneral)]

def mrTable : TransVal :=
  TransVal.table
    [("greetings", TransVal.strs mrGreetings),
     ("mood_positive", TransVal.strs mrMoodPositive),
     ("mood_negative", TransVal.strs mrMoodNegative),
     ("mood_neutral", TransVal.strs mrMoodNeutral),
     ("general", TransVal.strs mrGeneral)]

def knTable : TransVal :=
  TransVal.table
    [("greetings", TransVal.strs knGreetings),
     ("mood_positive", TransVal.strs knMoodPositive),
     ("mood_negative", TransVal.strs knMoodNegative),
     ("mood_neutral", TransVal.strs knMoodNeutral),
     ("general", TransVal.strs knGeneral)]

/-- The nested translation table of `initializeTranslations`, keyed by
language code. -/
def chatbotTranslations : TransTable :=
  [("en", enTable), ("hi", hiTable), ("mr", mrTable), ("kn", knTable)]

/-! ## Crisis detection and intent recognition -/

/-- The crisis keyword list of `isCrisisMessage`. -/
def crisisKeywords : List String :=
  ["suicide", "kill myself", "end it all", "not worth living", "hurt myself",
   "self harm", "cutting", "overdose", "emergency", "crisis", "help me",
   "can't go on"]

/-- `isCrisisMessage(message)`: substring containment of any crisis keyword
in the (already lower-cased, trimmed) message. -/
def isCrisisMessage (message : String) : Bool :=
  crisisKeywords.any (fun keyword => jsIncludes message keyword)

/-- The 15 intents of the taxonomy plus the `general` fallback. -/
inductive Intent where
  | greeting
  | mood_sharing
  | anxiety
  | depression
  | stress
  | sleep
  | relationships
  | self_care
  | cbt_help
  | breathing
  | mindfulness
  | gratitude
  | coping
  | progress
  | resources
  | general
deriving DecidableEq

/-- Each intent's keyword set, as declared in `recognizeIntent`
(the `general` fallback has no keywords). -/
def intentKeywords : Intent → List String
  | Intent.greeting => ["hello", "hi", "hey", "good morning", "good afternoon", "good evening"]
  | Intent.mood_sharing => ["feeling", "feel", "mood", "sad", "happy", "angry", "anxious", "depressed", "excited", "worried"]
  | Intent.anxiety => ["anxious", "anxiety", "worried", "worry", "nervous", "panic", "overwhelmed", "stressed"]
  | Intent.depression => ["depressed", "sad", "down", "hopeless", "empty", "worthless", "suicidal"]
  | Intent.stress => ["stressed", "stress", "pressure", "overwhelmed", "burnout", "tired"]
  | Intent.sleep => ["sleep", "insomnia", "tired", "exhausted", "rest"]
  | Intent.relationships => ["relationship", "partner", "family", "friend", "lonely", "isolated"]
  | Intent.self_care => ["self care", "self-care", "care for myself", "treat myself"]
  | Intent.cbt_help => ["cbt", "cognitive", "thoughts", "thinking", "negative thoughts"]
  | Intent.breathing => ["breathing", "breathe", "calm down", "relax"]
  | Intent.mindfulness => ["mindful", "mindfulness", "meditation", "present"]
  | Intent.gratitude => ["grateful", "gratitude", "thankful", "appreciate"]
  | Intent.coping => ["cope", "coping", "deal with", "handle"]
  | Intent.progress => ["progress", "improvement", "better", "getting better"]
  | Intent.resources => ["help", "resources", "support", "crisis"]
  | Intent.general => []

/-- The declaration (enumeration) order of the intents object, as iterated
by `Object.entries` in `recognizeIntent`. -/
def intentOrder : List Intent :=
  [Intent.greeting, Intent.mood_sharing, Intent.anxiety, Intent.depression,
   Intent.stress, Intent.sleep, Intent.relationships, Intent.self_care,
   Intent.cbt_help, Intent.breathing, Intent.mindfulness, Intent.gratitude,
   Intent.coping, Intent.progress, Intent.resources]

/-- Whether any keyword of intent `i` occurs in the message. -/
def intentMatches (i : Intent) (message : String) : Bool :=
  (intentKeywords i).any (fun keyword => jsIncludes message keyword)

/-- `recognizeIntent(message)`: the first intent in enumeration order with
a keyword match, else the `general` fallback. -/
def recognizeIntent (message : String) : Intent :=
  (intentOrder.find? (fun i => intentMatches i message)).getD Intent.general

/-! ## Replies and their handlers -/

structure BreathingExercise where
  name : String
  instruction : String
  duration : String
deriving DecidableEq

/-- The reply property bag of `generateResponse`: `type` is always set,
the other optional properties default to absent (`none`).  `text` is
`Option`al because an out-of-bounds pool index in JavaScript would yield
`undefined` (shown unreachable in the totality theorem). -/
structure Reply where
  text : Option String
  type : String
  urgent : Option Bool := none
  techniques : Option (List String) := none
  exercise : Option BreathingExercise := none
deriving DecidableEq

/-- `Math.floor(r * n)` for the supplied random sample `r`. -/
def jsFloorIdx (r : ℚ) (n : ℕ) : ℕ :=
  (⌊r * (n : ℚ)⌋).toNat

/-- `pool[Math.floor(Math.random() * pool.length)]`. -/
def pickReplyText (r : ℚ) (pool : List String) : Option String :=
  pool.get? (jsFloorIdx r pool.length)

/-- Indexing a `getTranslation` result by a random pool index.  A string
array yields one of its entries; indexing the literal key string (the
double-fallback result) yields a one-character string as in JavaScript;
numeric indexing of a nested table is not declared, hence `undefined`. -/
def pickFromTranslation (r : ℚ) : TransVal ⊕ String → Option String
  | Sum.inl (TransVal.strs ss) => ss.get? (jsFloorIdx r ss.length)
  | Sum.inl (TransVal.table _) => none
  | Sum.inr k => (k.data.get? (jsFloorIdx r k.length)).map (fun c => String.mk [c])

/-- The fixed English crisis message with hotline numbers. -/
def crisisText : String :=
  "I'm really concerned about what you're sharing with me. Your safety is the most important thing right now. Please reach out to a crisis helpline immediately:\n\n🇺🇸 National Suicide Prevention Lifeline: 988\n🇺🇸 Crisis Text Line: Text HOME to 741741\n🇬🇧 Samaritans: 116 123\n🇦🇺 Lifeline: 13 11 14\n\nYou don't have to face this alone. There are people who care and want to help you. Please reach out to someone you trust or a mental health professional right away."

/-- `handleCrisisResponse()`: the single fixed, urgent crisis reply. -/
def handleCrisisResponse : Reply :=
  { text := some crisisText, type := "crisis", urgent := some true }

/-- The literal reply pools of the intent handlers. -/
def anxietyResponses : List String :=
  ["I understand anxiety can feel overwhelming. Let's try a simple breathing exercise together. Take a slow, deep breath in for 4 counts, hold for 4, and exhale for 6. Would you like to try this?",
   "Anxiety is challenging, but you're not alone in this. One technique that often helps is the 5-4-3-2-1 grounding method: name 5 things you can see, 4 you can touch, 3 you can hear, 2 you can smell, and 1 you can taste.",
   "When anxiety feels intense, remember that this feeling will pass. Try focusing on your breathing and remind yourself that you've gotten through difficult moments before. What usually helps you feel more grounded?"]

def depressionResponses : List String :=
  ["I'm sorry you're feeling this way. Depression can make everything feel heavy and difficult. Remember that your feelings are valid, and it's okay to not be okay. What's one small thing that might feel manageable right now?",
   "When depression feels overwhelming, sometimes the smallest steps can make a difference. Even getting out of bed or taking a shower can be an accomplishment. What's one thing you're proud of yourself for today?",
   "Depression can make us feel isolated, but you're not alone. Many people understand what you're going through. What's been the most challenging part of your day?"]

def stressResponses : List String :=
  ["Stress can feel overwhelming, but there are ways to manage it. Let's try a quick stress relief technique: tense and then relax each muscle group, starting from your toes and working up to your head.",
   "When stress builds up, it's important to take breaks. Even a 5-minute walk or some deep breathing can help reset your nervous system. What's one small thing you could do for yourself right now?",
   "Stress is your body's response to pressure, and it's completely normal. The key is finding healthy ways to manage it. What usually helps you feel more relaxed?"]

def sleepResponses : List String :=
  ["Sleep is so important for mental health. Try creating a relaxing bedtime routine: dim the lights, avoid screens an hour before bed, and try some gentle stretching or reading.",
   "If you're having trouble sleeping, try the 4-7-8 breathing technique: inhale for 4, hold for 7, exhale for 8. This can help activate your body's relaxation response.",
   "Good sleep hygiene includes keeping a consistent schedule, even on weekends. What's your current bedtime routine like?"]

def relationshipResponses : List String :=
  ["Relationships can be complex and sometimes challenging. It's important to communicate your needs clearly and set healthy boundaries. What's been on your mind regarding your relationships?",
   "Healthy relationships require effort from both people. Remember that you deserve to be treated with respect and kindness. What's one thing you could do to nurture your relationships?",
   "Sometimes we need to step back and evaluate our relationships. What's been working well, and what might need some attention?"]

def selfCareResponses : List String :=
  ["Self-care isn't selfish—it's essential! What's one thing you could do today to take care of yourself? Even small acts of self-care can make a big difference.",
   "Self-care looks different for everyone. It might be taking a bath, going for a walk, reading a book, or simply allowing yourself to rest. What feels nourishing to you?",
   "Remember that self-care includes both physical and emotional needs. What's one way you could be kinder to yourself today?"]

def gratitudeResponses : List String :=
  ["Gratitude is such a powerful practice! Even in difficult times, there are often small things to appreciate. What's one thing you're grateful for today?",
   "Practicing gratitude can shift our perspective and improve our mood. What's something positive that happened today, no matter how small?",
   "Gratitude doesn't mean ignoring difficult feelings—it's about finding balance. What's one thing that brought you a moment of joy or peace today?"]

def progressResponses : List String :=
  ["It's wonderful that you're noticing progress! Growth isn't always linear, and every step forward matters. What changes have you noticed in yourself?",
   "Celebrating progress, no matter how small, is so important. What's one thing you're proud of yourself for recently?",
   "Progress looks different for everyone. Sometimes it's about managing difficult days better, or being kinder to yourself. What progress are you noticing?"]

def cbtResponseText : String :=
  "CBT (Cognitive Behavioral Therapy) helps us understand the connection between our thoughts, feelings, and behaviors. Here's a simple CBT technique:\n\n1. Notice your thought\n2. Ask: 'Is this thought helpful or harmful?'\n3. If harmful, ask: 'What's a more balanced way to think about this?'\n4. Practice the new thought\n\nWould you like to try this with a specific thought that's been bothering you?"

def mindfulnessResponseText : String :=
  "Mindfulness is about being present in the moment without judgment. Here's a simple mindfulness practice:\n\nTake a moment to notice:\n• 5 things you can see\n• 4 things you can touch\n• 3 things you can hear\n• 2 things you can smell\n• 1 thing you can taste\n\nThis grounding technique can help bring you back to the present moment. How does it feel?"

def copingResponseText : String :=
  "Here are some healthy coping strategies you can try:\n\n• Deep breathing exercises\n• Physical activity or gentle movement\n• Talking to someone you trust\n• Journaling your thoughts and feelings\n• Engaging in a hobby you enjoy\n• Practicing mindfulness or meditation\n\nWhat coping strategies have worked for you in the past?"

def resourcesText : String :=
  "I'm here to provide support, but I also want to make sure you have access to professional resources when needed:\n\n• Consider speaking with a therapist or counselor\n• Reach out to trusted friends or family\n• Use crisis helplines if you're in immediate distress\n• Practice self-care and healthy coping strategies\n\nRemember, seeking professional help is a sign of strength, not weakness. What kind of support are you looking for?"

/-- `initializeBreathingExercises()`. -/
def breathingExercises : List BreathingExercise :=
  [{ name := "4-7-8 Breathing",
     instruction := "Breathe in for 4 counts, hold for 7, exhale for 8. Repeat 4 times. This activates your body's relaxation response.",
     duration := "2-3 minutes" },
   { name := "Box Breathing",
     instruction := "Breathe in for 4, hold for 4, exhale for 4, hold for 4. Imagine drawing a box with your breath.",
     duration := "3-5 minutes" },
   { name := "Diaphragmatic Breathing",
     instruction := "Place one hand on your chest, one on your belly. Breathe so only your belly hand moves. This engages your diaphragm for deeper, calmer breathing.",
     duration := "5-10 minutes" }]

/-- `handleGreeting()`. -/
def handleGreeting (lang : String) (r : ℚ) : Reply :=
  { text := pickFromTranslation r (getTranslation chatbotTranslations lang "greetings"),
    type := "greeting" }

/-- `handleMoodSharing(message)`: sub-classify the same message as
positive, negative or neutral by plain substring checks, then pick from
the corresponding localized pool. -/
def handleMoodSharing (lang : String) (r : ℚ) (message : String) : Reply :=
  let responseType : String :=
    if jsIncludes message "good" || jsIncludes message "great" ||
        jsIncludes message "happy" || jsIncludes message "excited" then "positive"
    else if jsIncludes message "bad" || jsIncludes message "sad" ||
        jsIncludes message "terrible" || jsIncludes message "awful" then "negative"
    else "neutral"
  let pool :=
    if responseType = "positive" then
      getTranslation chatbotTranslations lang "mood_positive"
    else if responseType = "negative" then
      getTranslation chatbotTranslations lang "mood_negative"
    else
      getTranslation chatbotTranslations lang "mood_neutral"
  { text := pickFromTranslation r pool, type := "mood_response" }

def handleAnxiety (r : ℚ) : Reply :=
  { text := pickReplyText r anxietyResponses, type := "anxiety_support",
    techniques := some ["breathing", "grounding"] }

def handleDepression (r : ℚ) : Reply :=
  { text := pickReplyText r depressionResponses, type := "depression_support",
    techniques := some ["behavioral_activation", "self_compassion"] }

def handleStress (r : ℚ) : Reply :=
  { text := pickReplyText r stressResponses, type := "stress_support",
    techniques := some ["progressive_relaxation", "mindfulness"] }

def handleSleep (r : ℚ) : Reply :=
  { text := pickReplyText r sleepResponses, type := "sleep_support",
    techniques := some ["sleep_hygiene", "breathing"] }

def handleRelationships (r : ℚ) : Reply :=
  { text := pickReplyText r relationshipResponses, type := "relationship_support" }

def handleSelfCare (r : ℚ) : Reply :=
  { text := pickReplyText r selfCareResponses, type := "self_care_support" }

def handleCBTRequest : Reply :=
  { text := some cbtResponseText, type := "cbt_technique",
    techniques := some ["thought_challenging"] }

/-- `handleBreathingRequest()`: `getRandomBreathingExercise()` picks an
exercise and the reply carries its instruction and the exercise object. -/
def handleBreathingRequest (r : ℚ) : Reply :=
  match breathingExercises.get? (jsFloorIdx r breathingExercises.length) with
  | some ex => { text := some ex.instruction, type := "breathing_exercise", exercise := some ex }
  | none => { text := none, type := "breathing_exercise" }

def handleMindfulnessRequest : Reply :=
  { text := some mindfulnessResponseText, type := "mindfulness_practice",
    techniques := some ["grounding"] }

def handleGratitude (r : ℚ) : Reply :=
  { text := pickReplyText r gratitudeResponses, type := "gratitude_practice" }

def handleCopingStrategies : Reply :=
  { text := some copingResponseText, type := "coping_strategies" }

def handleProgressCheck (r : ℚ) : Reply :=
  { text := pickReplyText r progressResponses, type := "progress_celebration" }

def handleResourcesRequest : Reply :=
  { text := some resourcesText, type := "resources_info" }

def handleGeneralResponse (lang : String) (r : ℚ) : Reply :=
  { text := pickFromTranslation r (getTranslation chatbotTranslations lang "general"),
    type := "general_support" }

/-- The `switch (intent)` dispatch of `generateResponse`. -/
def dispatchIntent (lang : String) (r : ℚ) (message : String) : Intent → Reply
  | Intent.greeting => handleGreeting lang r
  | Intent.mood_sharing => handleMoodSharing lang r message
  | Intent.anxiety => handleAnxiety r
  | Intent.depression => handleDepression r
  | Intent.stress => handleStress r
  | Intent.sleep => handleSleep r
  | Intent.relationships => handleRelationships r
  | Intent.self_care => handleSelfCare r
  | Intent.cbt_help => handleCBTRequest
  | Intent.breathing => handleBreathingRequest r
  | Intent.mindfulness => handleMindfulnessRequest
  | Intent.gratitude => handleGratitude r
  | Intent.coping => handleCopingStrategies
  | Intent.progress => handleProgressCheck r
  | Intent.resources => handleResourcesRequest
  | Intent.general => handleGeneralResponse lang r

/-- `generateResponse(userMessage)`: lower-case and trim, crisis scan,
intent recognition, dispatch.  `lang` is the engine's `currentLanguage`
and `r` the `Math.random()` sample of the call.  The `updateContext`
call only pushes onto the bounded `recentTopics` list, which no reply
path reads, so it does not appear in this pure per-call model. -/
def generateResponse (lang : String) (r : ℚ) (userMessage : String) : Reply :=
  let message := trimStr (lowerStr userMessage)
  if isCrisisMessage message then handleCrisisResponse
  else dispatchIntent lang r message (recognizeIntent message)

/-- The reply `type` string each intent's handler sets. -/
def intentTypeName : Intent → String
  | Intent.greeting => "greeting"
  | Intent.mood_sharing => "mood_response"
  | Intent.anxiety => "anxiety_support"
  | Intent.depression => "depression_support"
  | Intent.stress => "stress_support"
  | Intent.sleep => "sleep_support"
  | Intent.relationships => "relationship_support"
  | Intent.self_care => "self_care_support"
  | Intent.cbt_help => "cbt_technique"
  | Intent.breathing => "breathing_exercise"
  | Intent.mindfulness => "mindfulness_practice"
  | Intent.gratitude => "gratitude_practice"
  | Intent.coping => "coping_strategies"
  | Intent.progress => "progress_celebration"
  | Intent.resources => "resources_info"
  | Intent.general => "general_support"

/-! ## Data manager (`DataManager`)

The store is modelled by the getter-visible state of the five
localStorage collections/singletons after `initializeData` (the
`getData` defaults make a missing collection indistinguishable from an
empty one to every caller).  JavaScript numbers that flow unvalidated
through entries are modelled by `JNum := Option ℚ`: `none` stands for an
absent (`undefined`) field, whose arithmetic behaves like `NaN`. -/

abbrev JNum := Option ℚ

/-- JavaScript `+` on possibly-undefined numbers: `undefined`/`NaN`
propagates. -/
def jadd : JNum → JNum → JNum
  | some a, some b => some (a + b)
  | _, _ => none

/-- JavaScript `-`. -/
def jsub : JNum → JNum → JNum
  | some a, some b => some (a - b)
  | _, _ => none

/-- `reduce((sum, mood) => sum + mood, 0)`. -/
def jsum (l : List JNum) : JNum :=
  l.foldl jadd (some 0)

/-- Division by a (positive) length. -/
def jdivNat (a : JNum) (n : ℕ) : JNum :=
  a.map (fun q => q / (n : ℚ))

/-- `Math.max` of two values (`NaN` propagates). -/
def jmax2 : JNum → JNum → JNum
  | some a, some b => some (max a b)
  | _, _ => none

/-- `Math.min` of two values. -/
def jmin2 : JNum → JNum → JNum
  | some a, some b => some (min a b)
  | _, _ => none

/-- `Math.max(...moods)` over a non-empty spread. -/
def jmaxList : List JNum → JNum
  | [] => none
  | x :: xs => xs.foldl jmax2 x

/-- `Math.min(...moods)` over a non-empty spread. -/
def jminList : List JNum → JNum
  | [] => none
  | x :: xs => xs.foldl jmin2 x

/-- JavaScript `>` (comparisons with `NaN` are false). -/
def jgtBool : JNum → JNum → Bool
  | some a, some b => decide (b < a)
  | _, _ => false

/-- JavaScript `<`. -/
def jltBool : JNum → JNum → Bool
  | some a, some b => decide (a < b)
  | _, _ => false

/-- `Math.round(x * 10) / 10`, the one-decimal rounding of the mood
average (`Math.round` is floor of `x + 1/2`). -/
def jround1 : JNum → JNum :=
  Option.map (fun x => ((⌊x * 10 + 1 / 2⌋ : ℤ) : ℚ) / 10)

/-! ### Entities -/

structure ChatMessageInput where
  sender : Option String := none
  text : Option String := none
  id : Option String := none
  timestamp : Option String := none
deriving DecidableEq

/-- A stored chat message: `{id: generateId(), ...message,
timestamp: now}` — a caller-supplied `id` in the spread overrides the
generated one, the generated `timestamp` overrides any supplied one. -/
structure ChatMessage where
  id : String
  sender : Option String
  text : Option String
  timestamp : String
deriving DecidableEq

structure MoodInput where
  mood : Option ℚ := none
  notes : Option String := none
  id : Option String := none
  timestamp : Option String := none
  date : Option String := none
deriving DecidableEq

/-- A stored mood entry: `{id: generateId(), ...moodData, timestamp: now,
date: today}`. -/
structure MoodEntry where
  id : String
  mood : Option ℚ
  notes : Option String
  timestamp : String
  date : String
deriving DecidableEq

structure CheckInInput where
  dayRating : Option ℚ := none
  positiveThings : Option String := none
  challenges : Option String := none
  gratitude : Option String := none
  tomorrowFocus : Option String := none
  id : Option String := none
  timestamp : Option String := none
  date : Option String := none
deriving DecidableEq

/-- A stored check-in: `{id: generateId(), ...checkInData, timestamp: now,
date: today}`. -/
structure CheckIn where
  id : String
  dayRating : Option ℚ
  positiveThings : Option String
  challenges : Option String
  gratitude : Option String
  tomorrowFocus : Option String
  timestamp : String
  date : String
deriving DecidableEq

/-- The streak singleton; `lastCheckIn` is a `toDateString` calendar-day
string or `null`. -/
structure StreakState where
  currentStreak : ℕ
  longestStreak : ℕ
  lastCheckIn : Option String
deriving DecidableEq

structure Preferences where
  dailyReminders : Bool
  moodReminders : Bool
  theme : String
  notifications : Bool
deriving DecidableEq

/-- The getter-visible store state. -/
structure Store where
  chatHistory : List ChatMessage
  moodData : List MoodEntry
  checkIns : List CheckIn
  preferences : Preferences
  streakData : StreakState
deriving DecidableEq

/-- The default preferences of `initializeData`. -/
def defaultPreferences : Preferences :=
  { dailyReminders := true, moodReminders := true, theme := "light",
    notifications := true }

/-- The default streak of `initializeData`. -/
def initialStreak : StreakState :=
  { currentStreak := 0, longestStreak := 0, lastCheckIn := none }

/-- The store right after `initializeData` on empty storage. -/
def initialStore : Store :=
  { chatHistory := [], moodData := [], checkIns := [],
    preferences := defaultPreferences, streakData := initialStreak }

/-! ### Operations -/

/-- `addChatMessage(message)`; `genId` is the `generateId()` result and
`now` the ISO timestamp of the call. -/
def addChatMessage (genId now : String) (message : ChatMessageInput)
    (st : Store) : ChatMessage × Store :=
  let newMessage : ChatMessage :=
    { id := message.id.getD genId, sender := message.sender,
      text := message.text, timestamp := now }
  (newMessage, { st with chatHistory := st.chatHistory ++ [newMessage] })

/-- `addMoodEntry(moodData)`; `today` is `new Date().toDateString()`. -/
def addMoodEntry (genId now today : String) (moodData : MoodInput)
    (st : Store) : MoodEntry × Store :=
  let newEntry : MoodEntry :=
    { id := moodData.id.getD genId, mood := moodData.mood,
      notes := moodData.notes, timestamp := now, date := today }
  (newEntry, { st with moodData := st.moodData ++ [newEntry] })

/-- `updateStreak()` as a pure transition on the streak singleton, with
the call-time `today`/`yesterday` calendar-day strings as parameters. -/
def updateStreak (today yesterday : String) (streakData : StreakState) :
    StreakState :=
  if streakData.lastCheckIn = some today then streakData
  else
    let currentStreak :=
      if streakData.lastCheckIn = some yesterday ∨ streakData.currentStreak = 0 then
        streakData.currentStreak + 1
      else 1
    { currentStreak := currentStreak,
      longestStreak := max streakData.longestStreak currentStreak,
      lastCheckIn := some today }

/-- `addCheckIn(checkInData)`: append the materialized check-in, then run
the streak transaction. -/
def addCheckIn (genId now today yesterday : String)
    (checkInData : CheckInInput) (st : Store) : CheckIn × Store :=
  let newCheckIn : CheckIn :=
    { id := checkInData.id.getD genId, dayRating := checkInData.dayRating,
      positiveThings := checkInData.positiveThings,
      challenges := checkInData.challenges, gratitude := checkInData.gratitude,
      tomorrowFocus := checkInData.tomorrowFocus, timestamp := now,
      date := today }
  let st1 := { st with checkIns := st.checkIns ++ [newCheckIn] }
  (newCheckIn, { st1 with streakData := updateStreak today yesterday st1.streakData })

/-- The statistics record of `getMoodStats`. -/
structure MoodStats where
  average : JNum
  best : JNum
  worst : JNum
  totalDays : ℕ
  recentTrend : String
deriving DecidableEq

/-- `getMoodStats()` over the mood collection: overall average (rounded
to one decimal), best, worst, and the last-7 versus preceding-7 trend
with its at-least-3-in-each-window guard.  `slice(-7)` is
`drop (n - 7)` and `slice(-14, -7)` is `(take (n - 7)).drop (n - 14)` in
truncated `ℕ` subtraction. -/
def getMoodStats (moodHistory : List MoodEntry) : MoodStats :=
  if moodHistory.length = 0 then
    { average := some 0, best := some 0, worst := some 0, totalDays := 0,
      recentTrend := "stable" }
  else
    let moods := moodHistory.map (fun e => e.mood)
    let average := jdivNat (jsum moods) moods.length
    let n := moodHistory.length
    let recentMoods := (moodHistory.drop (n - 7)).map (fun e => e.mood)
    let previousMoods := ((moodHistory.take (n - 7)).drop (n - 14)).map (fun e => e.mood)
    let recentTrend :=
      if 3 ≤ recentMoods.length ∧ 3 ≤ previousMoods.length then
        let recentAvg := jdivNat (jsum recentMoods) recentMoods.length
        let previousAvg := jdivNat (jsum previousMoods) previousMoods.length
        if jgtBool recentAvg (jadd previousAvg (some (1 / 2))) then "improving"
        else if jltBool recentAvg (jsub previousAvg (some (1 / 2))) then "declining"
        else "stable"
      else "stable"
    { average := jround1 average, best := jmaxList moods, worst := jminList moods,
      totalDays := n, recentTrend := recentTrend }

/-- The parsed export bundle; absent/falsy fields are `none`.  A JSON
document such as `{"foo":1}` parses to a bundle with every field
absent. -/
structure Bundle where
  version : Option String := none
  exportDate : Option String := none
  chatHistory : Option (List ChatMessage) := none
  moodData : Option (List MoodEntry) := none
  checkIns : Option (List CheckIn) := none
  preferences : Option Preferences := none
  streakData : Option StreakState := none
deriving DecidableEq

/-- JavaScript truthiness of a possibly-absent string field (`undefined`
and the empty string are falsy). -/
def truthyStr : Option String → Bool
  | none => false
  | some s => !(s == "")

/-- `exportAllData()` as the parsed form of its JSON output: every field
present, version `'1.0'`, `exportDate` the call-time ISO string. -/
def exportAllData (exportDate : String) (st : Store) : Bundle :=
  { version := some "1.0", exportDate := some exportDate,
    chatHistory := some st.chatHistory, moodData := some st.moodData,
    checkIns := some st.checkIns, preferences := some st.preferences,
    streakData := some st.streakData }

/-- `importData(jsonData)`: `none` models malformed JSON (a `JSON.parse`
exception, caught, `false`); a parsed bundle missing `version` or
`exportDate` throws and is caught before any write; otherwise each
present collection overwrites the stored one wholesale. -/
def importData (parsed : Option Bundle) (st : Store) : Bool × Store :=
  match parsed with
  | none => (false, st)
  | some data =>
    if truthyStr data.version && truthyStr data.exportDate then
      (true,
        { chatHistory := data.chatHistory.getD st.chatHistory,
          moodData := data.moodData.getD st.moodData,
          checkIns := data.checkIns.getD st.checkIns,
          preferences := data.preferences.getD st.preferences,
          streakData := data.streakData.getD st.streakData })
    else (false, st)

/-- `clearAllData()`: remove every key, then `initializeData` — the
getter-visible result is the initial store. -/
def clearAllData (_st : Store) : Store :=
  initialStore

/-- `validateMoodData(moodData)`: declared by the data manager but never
invoked by any of its operations. -/
def validateMoodData (moodData : MoodInput) : Bool :=
  match moodData.mood with
  | some m => decide (1 ≤ m) && decide (m ≤ 5)
  | none => false

/-- The numeric mood values of a list of entries (the claims quantify
over entries whose `mood` fields are all present). -/
def moodVals (l : List MoodEntry) : List ℚ :=
  l.filterMap (fun e => e.mood)

/-- The arithmetic mean used by the trend claims. -/
def qmean (xs : List ℚ) : ℚ :=
  xs.sum / (xs.length : ℚ)

/-- A two-entry mood history with extreme values (fixture for the
insufficient-sample guard). -/
def sampleTwoEntries : List MoodEntry :=
  [{ id := "a", mood := some 1, notes := none, timestamp := "t1", date := "d1" },
   { id := "b", mood := some 5, notes := none, timestamp := "t2", date := "d2" }]

/-- A ten-entry mood history whose previous window (the first three
entries) averages 3.0 and whose recent window (the last seven) averages
4.0 (fixture for the improving classification). -/
def sampleTenEntries : List MoodEntry :=
  [{ id := "a", mood := some 3, notes := none, timestamp := "t1", date := "d1" },
   { id := "b", mood := some 3, notes := none, timestamp := "t2", date := "d2" },
   { id := "c", mood := some 3, notes := none, timestamp := "t3", date := "d3" },
   { id := "d", mood := some 4, notes := none, timestamp := "t4", date := "d4" },
   { id := "e", mood := some 4, notes := none, timestamp := "t5", date := "d5" },
   { id := "f", mood := some 4, notes := none, timestamp := "t6", date := "d6" },
   { id := "g", mood := some 4, notes := none, timestamp := "t7", date := "d7" },
   { id := "h", mood := some 4, notes := none, timestamp := "t8", date := "d8" },
   { id := "i", mood := some 4, notes := none, timestamp := "t9", date := "d9" },
   { id := "j", mood := some 4, notes := none, timestamp := "t10", date := "d10" }]

/-! ## Helper lemmas -/

/-- A non-whitespace-headed infix survives `dropWhile` at the front. -/
theorem cons_infix_dropWhile {p : Char → Bool} {c : Char} {k l : List Char}
    (h : (c :: k) <:+: l) (hc : p c = false) :
    (c :: k) <:+: l.dropWhile p := by
  induction l with
  | nil => exact absurd (List.infix_nil.mp h) (by simp)
  | cons a t ih =>
    by_cases hpa : p a
    · rw [List.dropWhile_cons, if_pos hpa]
      rcases List.infix_cons_iff.mp h with hpre | hinf
      · obtain ⟨s, hs⟩ := hpre
        rw [List.cons_append] at hs
        injection hs with h1 _
        rw [h1] at hc
        exact absurd hpa (by simp [hc])
      · exact ih hinf
    · rw [List.dropWhile_cons, if_neg hpa]
      exact h

/-- An infix with non-whitespace first and last characters survives
`trim`. -/
theorem infix_trimChars {k l : List Char} (hk : k ≠ [])
    (hhead : isJsWhitespace k.headI = false)
    (hlast : isJsWhitespace k.reverse.headI = false)
    (h : k <:+: l) : k <:+: trimChars l := by
  cases k with
  | nil => exact absurd rfl hk
  | cons c k' =>
    have h1 : (c :: k') <:+: l.dropWhile isJsWhitespace :=
      cons_infix_dropWhile h (by simpa using hhead)
    have h2 : (c :: k').reverse <:+: (l.dropWhile isJsWhitespace).reverse :=
      List.reverse_infix.mpr h1
    cases hm : (c :: k').reverse with
    | nil => simp at hm
    | cons e m' =>
      have he : isJsWhitespace e = false := by
        have hh : (c :: k').reverse.headI = e := by rw [hm]; rfl
        rwa [hh] at hlast
      rw [hm] at h2
      have h3 : (e :: m') <:+:
          ((l.dropWhile isJsWhitespace).reverse).dropWhile isJsWhitespace :=
        cons_infix_dropWhile h2 he
      have h4 := List.reverse_infix.mpr h3
      have h5 : (e :: m').reverse = c :: k' := by
        rw [← hm, List.reverse_reverse]
      rw [h5] at h4
      exact h4

/-- The crisis keywords are non-empty, already lower-case, and have no
leading or trailing whitespace. -/
theorem crisisKeywords_wellformed :
    ∀ kw ∈ crisisKeywords,
      kw.data ≠ [] ∧ isJsWhitespace kw.data.headI = false ∧
      isJsWhitespace kw.data.reverse.headI = false ∧
      kw.data.map Char.toLower = kw.data := by decide

/-- A crisis keyword occurring anywhere in the raw input still occurs in
the lower-cased, trimmed message. -/
theorem crisis_keyword_in_processed {kw s : String}
    (hkw : kw ∈ crisisKeywords) (h : kw.data <:+: s.data) :
    jsIncludes (processMessage s) kw = true := by
  obtain ⟨hne, hhead, hlast, hlow⟩ := crisisKeywords_wellformed kw hkw
  have hmap : kw.data <:+: (lowerStr s).data := by
    have hmapped := h.map Char.toLower
    rwa [hlow] at hmapped
  have htrim : kw.data <:+: trimChars (lowerStr s).data :=
    infix_trimChars hne hhead hlast hmap
  simpa [jsIncludes, processMessage, trimStr] using htrim

/-- Any input containing a crisis keyword is flagged by the crisis
scan. -/
theorem isCrisis_of_keyword {s : String}
    (h : ∃ kw ∈ crisisKeywords, kw.data <:+: s.data) :
    isCrisisMessage (processMessage s) = true := by
  obtain ⟨kw, hkw, hinf⟩ := h
  unfold isCrisisMessage
  rw [List.any_eq_true]
  exact ⟨kw, hkw, crisis_keyword_in_processed hkw hinf⟩

/-- C1: any input containing a crisis keyword makes `generateResponse`
return the fixed English crisis reply with `urgent: true`, for every
display language and regardless of any other intent keywords the input
contains — it never reaches intent dispatch. -/
theorem crisis_precedence (s lang : String) (r : ℚ)
    (h : ∃ kw ∈ crisisKeywords, kw.data <:+: s.data) :
    generateResponse lang r s = handleCrisisResponse ∧
    (generateResponse lang r s).urgent = some true ∧
    (generateResponse lang r s).type = "crisis" ∧
    (generateResponse lang r s).text = some crisisText := by
  have hc := isCrisis_of_keyword h
  simp only [processMessage] at hc
  have hg : generateResponse lang r s = handleCrisisResponse := by
    unfold generateResponse
    simp [hc]
  exact ⟨hg, by rw [hg]; rfl, by rw [hg]; rfl, by rw [hg]; rfl⟩

/-- Witness for C1 at the spec's own example input, with a non-English
language selected and a message that also matches the `mood_sharing`
and `anxiety` intents. -/
theorem crisis_precedence_witness :
    generateResponse "hi" (1 / 3) "I feel anxious, thinking about suicide" = handleCrisisResponse ∧
    (generateResponse "hi" (1 / 3) "I feel anxious, thinking about suicide").urgent = some true ∧
    (generateResponse "hi" (1 / 3) "I feel anxious, thinking about suicide").type = "crisis" ∧
    (generateResponse "hi" (1 / 3) "I feel anxious, thinking about suicide").text = some crisisText :=
  crisis_precedence "I feel anxious, thinking about suicide" "hi" (1 / 3)
    ⟨"suicide", by decide, by decide⟩

/-- `find?` returns the first element satisfying the predicate. -/
theorem find?_append_first {α : Type} (p : α → Bool) (l₁ l₂ : List α) (a : α)
    (h₁ : ∀ x ∈ l₁, p x = false) (ha : p a = true) :
    (l₁ ++ a :: l₂).find? p = some a := by
  induction l₁ with
  | nil => simp [List.find?_cons, ha]
  | cons x xs ih =>
    have hx : p x = false := h₁ x (by simp)
    rw [List.cons_append, List.find?_cons, hx]
    exact ih (fun y hy => h₁ y (by simp [hy]))

/-- Each dispatch case sets its intent's `type` string. -/
theorem dispatchIntent_type (lang : String) (r : ℚ) (message : String)
    (i : Intent) : (dispatchIntent lang r message i).type = intentTypeName i := by
  cases i
  case breathing =>
    show (handleBreathingRequest r).type = _
    unfold handleBreathingRequest
    rcases breathingExercises.get? (jsFloorIdx r breathingExercises.length) with _ | ex <;> rfl
  all_goals rfl

/-- With no crisis match, `generateResponse` is the dispatch of the
recognized intent on the processed message. -/
theorem generateResponse_not_crisis (lang : String) (r : ℚ) (s : String)
    (hnc : isCrisisMessage (processMessage s) = false) :
    generateResponse lang r s =
      dispatchIntent lang r (processMessage s) (recognizeIntent (processMessage s)) := by
  simp only [processMessage] at hnc ⊢
  unfold generateResponse
  simp [hnc]

/-- C2: with no crisis keyword, when intent `i` has a keyword match on the
lower-cased (and trimmed) input and every intent before `i` in the fixed
taxonomy enumeration order has none, the reply's `type` is `i`'s type
string — enumeration order wins, not textual keyword position. -/
theorem intent_ordering (s lang : String) (r : ℚ) (i : Intent)
    (l₁ l₂ : List Intent) (horder : intentOrder = l₁ ++ i :: l₂)
    (hnc : isCrisisMessage (processMessage s) = false)
    (hmatch : intentMatches i (processMessage s) = true)
    (hearlier : ∀ j ∈ l₁, intentMatches j (processMessage s) = false) :
    (generateResponse lang r s).type = intentTypeName i := by
  have hri : recognizeIntent (processMessage s) = i := by
    unfold recognizeIntent
    rw [horder, find?_append_first _ l₁ l₂ i hearlier hmatch]
    rfl
  rw [generateResponse_not_crisis lang r s hnc, hri, dispatchIntent_type]

/-- Witness for C2 at the spec's example: "hello, I feel anxious" matches
`greeting` (first in enumeration order) although it also matches
`mood_sharing` and `anxiety`, so the reply type is `greeting`. -/
theorem intent_ordering_witness :
    (generateResponse "en" (1 / 4) "hello, I feel anxious").type =
      intentTypeName Intent.greeting ∧
    intentMatches Intent.anxiety (processMessage "hello, I feel anxious") = true :=
  ⟨intent_ordering "hello, I feel anxious" "en" (1 / 4) Intent.greeting []
    [Intent.mood_sharing, Intent.anxiety, Intent.depression, Intent.stress,
     Intent.sleep, Intent.relationships, Intent.self_care, Intent.cbt_help,
     Intent.breathing, Intent.mindfulness, Intent.gratitude, Intent.coping,
     Intent.progress, Intent.resources]
    rfl (by decide) (by decide) (by intro j hj; simp at hj),
   by decide⟩

/-- `split('.')` never yields an empty list. -/
theorem splitDot_ne_nil (l : List Char) : splitDot l ≠ [] := by
  cases l with
  | nil => simp [splitDot]
  | cons c cs =>
    unfold splitDot
    split
    · simp
    · cases hq : splitDot cs <;> simp

/-- The key list of `splitKeys` is never empty. -/
theorem splitKeys_ne_nil (key : String) : splitKeys key ≠ [] := by
  unfold splitKeys
  intro h
  exact splitDot_ne_nil key.data (List.map_eq_nil_iff.mp h)

/-- The English fallback loop is straight-line resolution with the
literal key as failure result. -/
theorem fallbackWalk_resolvePath (key : String) (ks : List String) :
    ∀ t, fallbackWalk key t ks =
      match resolvePath t ks with
      | some v => Sum.inl v
      | none => Sum.inr key := by
  induction ks with
  | nil => intro t; cases t <;> rfl
  | cons k ks ih =>
    intro t
    unfold fallbackWalk resolvePath
    cases h : t.bind (fun tv => tvGet tv k) with
    | none => simp [h]
    | some v => simp [h]; exact ih (some v)

/-- The outer loop resolves the current language's path, switching to the
fallback walk on the first failure.  The precondition rules out the
unreachable empty-keys/undefined-table combination. -/
theorem transLoop_resolvePath (tr : TransTable) (key : String)
    (allKeys : List String) (ks : List String) :
    ∀ t, (ks = [] → t ≠ none) →
      transLoop tr key allKeys t ks =
        match resolvePath t ks with
        | some v => Sum.inl v
        | none => fallbackWalk key (lookupTable tr "en") allKeys := by
  induction ks with
  | nil =>
    intro t ht
    cases t with
    | none => exact absurd rfl (ht rfl)
    | some v => rfl
  | cons k ks ih =>
    intro t _
    unfold transLoop resolvePath
    cases h : t.bind (fun tv => tvGet tv k) with
    | none => simp [h]
    | some v =>
      simp [h]
      exact ih (some v) (fun _ => by simp)

/-- `getTranslation` in resolution form: current language first, then the
full English re-walk, then the literal key. -/
theorem getTranslation_resolves (tr : TransTable) (lang key : String) :
    getTranslation tr lang key =
      match resolvePath (lookupTable tr lang) (splitKeys key) with
      | some v => Sum.inl v
      | none =>
        match resolvePath (lookupTable tr "en") (splitKeys key) with
        | some v => Sum.inl v
        | none => Sum.inr key := by
  unfold getTranslation
  rw [transLoop_resolvePath tr key (splitKeys key) (splitKeys key) _
    (fun hemp => absurd hemp (splitKeys_ne_nil key))]
  cases h : resolvePath (lookupTable tr lang) (splitKeys key) with
  | some v => simp [h]
  | none => simp [h, fallbackWalk_resolvePath]

/-- C8: `getTranslation` never throws (it is a total function) and obeys
the double fallback: a key path that resolves in the current language's
table yields that value; one that resolves only in the English table
yields the English value; one that resolves in neither yields the
literal key string unchanged. -/
theorem getTranslation_fallback (tr : TransTable) (lang key : String) :
    (∀ v, resolvePath (lookupTable tr lang) (splitKeys key) = some v →
      getTranslation tr lang key = Sum.inl v) ∧
    (resolvePath (lookupTable tr lang) (splitKeys key) = none →
      ∀ v, resolvePath (lookupTable tr "en") (splitKeys key) = some v →
        getTranslation tr lang key = Sum.inl v) ∧
    (resolvePath (lookupTable tr lang) (splitKeys key) = none →
      resolvePath (lookupTable tr "en") (splitKeys key) = none →
      getTranslation tr lang key = Sum.inr key) := by
  refine ⟨?_, ?_, ?_⟩
  · intro v hv
    rw [getTranslation_resolves, hv]
  · intro h v hv
    rw [getTranslation_resolves, h]
    simp [hv]
  · intro h h'
    rw [getTranslation_resolves, h]
    simp [h']

/-- Witness for C8 on the engine's own tables: a key present in Hindi
resolves there; a language with no table falls back to English; a key
absent everywhere comes back literally. -/
theorem getTranslation_fallback_witness :
    getTranslation chatbotTranslations "hi" "mood_positive" =
      Sum.inl (TransVal.strs hiMoodPositive) ∧
    getTranslation chatbotTranslations "de" "greetings" =
      Sum.inl (TransVal.strs enGreetings) ∧
    getTranslation chatbotTranslations "hi" "no.such_key" =
      Sum.inr "no.such_key" :=
  ⟨(getTranslation_fallback chatbotTranslations "hi" "mood_positive").1 _ rfl,
   (getTranslation_fallback chatbotTranslations "de" "greetings").2.1 rfl _ rfl,
   (getTranslation_fallback chatbotTranslations "hi" "no.such_key").2.2 rfl rfl⟩

/-- The only possible language-table lookups on the engine's table. -/
theorem lookup_chatbot_cases (lang : String) :
    lookupTable chatbotTranslations lang = none ∨
    lookupTable chatbotTranslations lang = some enTable ∨
    lookupTable chatbotTranslations lang = some hiTable ∨
    lookupTable chatbotTranslations lang = some mrTable ∨
    lookupTable chatbotTranslations lang = some knTable := by
  unfold lookupTable chatbotTranslations
  cases h1 : (("en" : String) == lang) with
  | true => right; left; simp [List.find?_cons, h1]
  | false =>
    cases h2 : (("hi" : String) == lang) with
    | true => right; right; left; simp [List.find?_cons, h1, h2]
    | false =>
      cases h3 : (("mr" : String) == lang) with
      | true => right; right; right; left; simp [List.find?_cons, h1, h2, h3]
      | false =>
        cases h4 : (("kn" : String) == lang) with
        | true =>
          right; right; right; right
          simp [List.find?_cons, h1, h2, h3, h4]
        | false => left; simp [List.find?_cons, h1, h2, h3, h4]

/-- For every language string, each of the five reply-pool keys yields a
non-empty string array from `getTranslation` (the language's own table
when it exists, the English table otherwise). -/
theorem chatbot_key_nonempty (lang : String) (key : String)
    (hkey : key ∈ (["greetings", "mood_positive", "mood_negative",
      "mood_neutral", "general"] : List String)) :
    ∃ ss, getTranslation chatbotTranslations lang key =
      Sum.inl (TransVal.strs ss) ∧ ss ≠ [] := by
  rcases lookup_chatbot_cases lang with h | h | h | h | h <;>
    fin_cases hkey <;>
    exact ⟨_, by rw [getTranslation_resolves, h]; rfl,
      by simp [enGreetings, enMoodPositive, enMoodNegative, enMoodNeutral,
        enGeneral, hiGreetings, hiMoodPositive, hiMoodNegative, hiMoodNeutral,
        hiGeneral, mrGreetings, mrMoodPositive, mrMoodNegative, mrMoodNeutral,
        mrGeneral, knGreetings, knMoodPositive, knMoodNegative, knMoodNeutral,
        knGeneral]⟩

/-- The floor-of-random pool index is in bounds for a non-empty pool. -/
theorem jsFloorIdx_lt {r : ℚ} (h1 : r < 1) {n : ℕ} (hn : 0 < n) :
    jsFloorIdx r n < n := by
  have hq : (0 : ℚ) < (n : ℚ) := by exact_mod_cast hn
  have h3 : r * (n : ℚ) < (n : ℚ) := by
    calc r * (n : ℚ) < 1 * (n : ℚ) := mul_lt_mul_of_pos_right h1 hq
    _ = (n : ℚ) := one_mul _
  have h2 : ⌊r * (n : ℚ)⌋ < (n : ℤ) := Int.floor_lt.mpr (by exact_mod_cast h3)
  unfold jsFloorIdx
  omega

theorem get?_isSome_of_lt {α : Type} {l : List α} {i : ℕ} (h : i < l.length) :
    (l.get? i).isSome = true := by
  cases hg : l.get? i with
  | none => exact absurd (List.get?_eq_none.mp hg) (by omega)
  | some a => rfl

/-- Selection from a non-empty literal pool yields a string. -/
theorem pickReplyText_isSome {r : ℚ} (h1 : r < 1) {pool : List String}
    (hp : pool ≠ []) : (pickReplyText r pool).isSome = true := by
  unfold pickReplyText
  exact get?_isSome_of_lt (jsFloorIdx_lt h1 (List.length_pos.mpr hp))

/-- Selection from any of the five translation pools yields a string, for
every language. -/
theorem pickTranslation_key_isSome (lang : String) (r : ℚ) (h1 : r < 1)
    (key : String)
    (hkey : key ∈ (["greetings", "mood_positive", "mood_negative",
      "mood_neutral", "general"] : List String)) :
    (pickFromTranslation r (getTranslation chatbotTranslations lang key)).isSome = true := by
  obtain ⟨ss, hss, hne⟩ := chatbot_key_nonempty lang key hkey
  rw [hss]
  unfold pickFromTranslation
  exact get?_isSome_of_lt (jsFloorIdx_lt h1 (List.length_pos.mpr hne))

/-- Every dispatch case produces a reply with a string `text`. -/
theorem dispatchIntent_text_isSome (lang : String) (r : ℚ) (message : String)
    (h1 : r < 1) (i : Intent) :
    (dispatchIntent lang r message i).text.isSome = true := by
  cases i
  case greeting =>
    show (handleGreeting lang r).text.isSome = true
    unfold handleGreeting
    exact pickTranslation_key_isSome lang r h1 "greetings" (by simp)
  case mood_sharing =>
    show (handleMoodSharing lang r message).text.isSome = true
    simp only [handleMoodSharing]
    split_ifs <;> exact pickTranslation_key_isSome lang r h1 _ (by simp)
  case general =>
    show (handleGeneralResponse lang r).text.isSome = true
    unfold handleGeneralResponse
    exact pickTranslation_key_isSome lang r h1 "general" (by simp)
  case anxiety => exact pickReplyText_isSome h1 (by simp [anxietyResponses])
  case depression => exact pickReplyText_isSome h1 (by simp [depressionResponses])
  case stress => exact pickReplyText_isSome h1 (by simp [stressResponses])
  case sleep => exact pickReplyText_isSome h1 (by simp [sleepResponses])
  case relationships => exact pickReplyText_isSome h1 (by simp [relationshipResponses])
  case self_care => exact pickReplyText_isSome h1 (by simp [selfCareResponses])
  case gratitude => exact pickReplyText_isSome h1 (by simp [gratitudeResponses])
  case progress => exact pickReplyText_isSome h1 (by simp [progressResponses])
  case breathing =>
    show (handleBreathingRequest r).text.isSome = true
    unfold handleBreathingRequest
    have hlt : jsFloorIdx r breathingExercises.length < breathingExercises.length :=
      jsFloorIdx_lt h1 (by simp [breathingExercises])
    cases hg : breathingExercises.get? (jsFloorIdx r breathingExercises.length) with
    | none =>
      have := List.get?_eq_none.mp hg
      omega
    | some ex => simp [hg]
  case cbt_help => rfl
  case mindfulness => rfl
  case coping => rfl
  case resources => rfl

/-- C10: `generateResponse` is total — for every input string and every
`currentLanguage` (including codes with no translation table), given a
random sample in `[0, 1)`, the reply's `text` is a string (never the
`undefined` of an out-of-bounds pool index) and its `type` is one of the
seventeen reply type strings. -/
theorem generateResponse_total (s lang : String) (r : ℚ)
    (h0 : 0 ≤ r) (h1 : r < 1) :
    (generateResponse lang r s).text.isSome = true ∧
    (generateResponse lang r s).type ∈
      (["crisis", "greeting", "mood_response", "anxiety_support",
        "depression_support", "stress_support", "sleep_support",
        "relationship_support", "self_care_support", "cbt_technique",
        "breathing_exercise", "mindfulness_practice", "gratitude_practice",
        "coping_strategies", "progress_celebration", "resources_info",
        "general_support"] : List String) := by
  by_cases hc : isCrisisMessage (processMessage s) = true
  · have hg : generateResponse lang r s = handleCrisisResponse := by
      simp only [processMessage] at hc
      unfold generateResponse
      simp [hc]
    rw [hg]
    exact ⟨rfl, by simp [handleCrisisResponse]⟩
  · have hnc : isCrisisMessage (processMessage s) = false := by
      simpa using hc
    rw [generateResponse_not_crisis lang r s hnc]
    refine ⟨dispatchIntent_text_isSome lang r (processMessage s) h1 _, ?_⟩
    rw [dispatchIntent_type]
    cases recognizeIntent (processMessage s) <;> simp [intentTypeName]

/-- Witness for C10 at an unknown language code and an input that reaches
the `general` fallback. -/
theorem generateResponse_total_witness :
    (generateResponse "fr" (2 / 3) "xyzzy").text.isSome = true ∧
    (generateResponse "fr" (2 / 3) "xyzzy").type ∈
      (["crisis", "greeting", "mood_response", "anxiety_support",
        "depression_support", "stress_support", "sleep_support",
        "relationship_support", "self_care_support", "cbt_technique",
        "breathing_exercise", "mindfulness_practice", "gratitude_practice",
        "coping_strategies", "progress_celebration", "resources_info",
        "general_support"] : List String) :=
  generateResponse_total "xyzzy" "fr" (2 / 3) (by norm_num) (by norm_num)

/-- C3: the streak transaction run by every `addCheckIn` implements
exactly the claimed transition: unchanged on a same-day re-check-in;
`currentStreak + 1` when `lastCheckIn` is yesterday or `currentStreak`
is zero; reset to 1 otherwise; then `longestStreak` becomes the max and
`lastCheckIn` becomes today. -/
theorem updateStreak_transition (genId now today yesterday : String)
    (inp : CheckInInput) (st : Store) (sd : StreakState) :
    ((addCheckIn genId now today yesterday inp st).2.streakData =
      updateStreak today yesterday st.streakData) ∧
    (sd.lastCheckIn = some today → updateStreak today yesterday sd = sd) ∧
    (sd.lastCheckIn ≠ some today →
      (sd.lastCheckIn = some yesterday ∨ sd.currentStreak = 0) →
      updateStreak today yesterday sd =
        { currentStreak := sd.currentStreak + 1,
          longestStreak := max sd.longestStreak (sd.currentStreak + 1),
          lastCheckIn := some today }) ∧
    (sd.lastCheckIn ≠ some today → sd.lastCheckIn ≠ some yesterday →
      sd.currentStreak ≠ 0 →
      updateStreak today yesterday sd =
        { currentStreak := 1, longestStreak := max sd.longestStreak 1,
          lastCheckIn := some today }) := by
  refine ⟨rfl, ?_, ?_, ?_⟩
  · intro h
    unfold updateStreak
    rw [if_pos h]
  · intro h hor
    unfold updateStreak
    rw [if_neg h, if_pos hor]
  · intro h h1 h2
    unfold updateStreak
    rw [if_neg h, if_neg (by tauto)]

/-- Witness for C3: a consecutive-day increment, a same-day no-op, and a
reset after a multi-day gap, on concrete calendar-day strings. -/
theorem updateStreak_transition_witness :
    updateStreak "Wed Jan 03 2024" "Tue Jan 02 2024"
        { currentStreak := 3, longestStreak := 5, lastCheckIn := some "Tue Jan 02 2024" } =
      { currentStreak := 4, longestStreak := 5, lastCheckIn := some "Wed Jan 03 2024" } ∧
    updateStreak "Wed Jan 03 2024" "Tue Jan 02 2024"
        { currentStreak := 3, longestStreak := 5, lastCheckIn := some "Wed Jan 03 2024" } =
      { currentStreak := 3, longestStreak := 5, lastCheckIn := some "Wed Jan 03 2024" } ∧
    updateStreak "Wed Jan 03 2024" "Tue Jan 02 2024"
        { currentStreak := 3, longestStreak := 5, lastCheckIn := some "Sat Dec 30 2023" } =
      { currentStreak := 1, longestStreak := 5, lastCheckIn := some "Wed Jan 03 2024" } := by
  refine ⟨?_, ?_, ?_⟩
  · rw [(updateStreak_transition "g" "n" "Wed Jan 03 2024" "Tue Jan 02 2024"
      ({} : CheckInInput) initialStore
      { currentStreak := 3, longestStreak := 5, lastCheckIn := some "Tue Jan 02 2024" }).2.2.1
      (by decide) (Or.inl rfl)]
    decide
  · exact (updateStreak_transition "g" "n" "Wed Jan 03 2024" "Tue Jan 02 2024"
      ({} : CheckInInput) initialStore
      { currentStreak := 3, longestStreak := 5, lastCheckIn := some "Wed Jan 03 2024" }).2.1 rfl
  · rw [(updateStreak_transition "g" "n" "Wed Jan 03 2024" "Tue Jan 02 2024"
      ({} : CheckInInput) initialStore
      { currentStreak := 3, longestStreak := 5, lastCheckIn := some "Sat Dec 30 2023" }).2.2.2
      (by decide) (by decide) (by decide)]
    decide

/-- C4 counterexample: `importData` copies the bundle's `streakData`
verbatim, so importing a bundle whose streak has
`currentStreak > longestStreak` succeeds and leaves the stored singleton
violating `longestStreak ≥ currentStreak`. -/
theorem import_streak_invariant_counterexample :
    (importData
      (some
        { version := some "1.0",
          exportDate := some "2024-01-01T00:00:00.000Z",
          streakData := some { currentStreak := 5, longestStreak := 2, lastCheckIn := none } })
      initialStore).1 = true ∧
    (importData
      (some
        { version := some "1.0",
          exportDate := some "2024-01-01T00:00:00.000Z",
          streakData := some { currentStreak := 5, longestStreak := 2, lastCheckIn := none } })
      initialStore).2.streakData.longestStreak <
    (importData
      (some
        { version := some "1.0",
          exportDate := some "2024-01-01T00:00:00.000Z",
          streakData := some { currentStreak := 5, longestStreak := 2, lastCheckIn := none } })
      initialStore).2.streakData.currentStreak := by
  exact ⟨rfl, by decide⟩

/-- C4 (amended): the streak transaction preserves
`longestStreak ≥ currentStreak` (and its mutating branches establish it),
`clearAll` re-establishes it, and `importAll` preserves it exactly when
the imported bundle's `streakData`, if present, itself satisfies it —
the bundle is stored verbatim without validation. -/
theorem streak_invariant_amended (today yesterday : String) (sd : StreakState)
    (b : Bundle) (st : Store) :
    (sd.longestStreak ≥ sd.currentStreak →
      (updateStreak today yesterday sd).longestStreak ≥
        (updateStreak today yesterday sd).currentStreak) ∧
    ((clearAllData st).streakData.longestStreak ≥
      (clearAllData st).streakData.currentStreak) ∧
    (st.streakData.longestStreak ≥ st.streakData.currentStreak →
      (∀ sd2, b.streakData = some sd2 → sd2.longestStreak ≥ sd2.currentStreak) →
      (importData (some b) st).2.streakData.longestStreak ≥
        (importData (some b) st).2.streakData.currentStreak) := by
  refine ⟨?_, Nat.le.refl, ?_⟩
  · intro hinv
    unfold updateStreak
    split
    · exact hinv
    · exact le_max_right _ _
  · intro hst hb
    simp only [importData]
    by_cases hcond : (truthyStr b.version && truthyStr b.exportDate) = true
    · rw [if_pos hcond]
      cases hsd : b.streakData with
      | none => simpa [hsd] using hst
      | some sd2 => simpa [hsd] using hb sd2 hsd
    · rw [if_neg hcond]
      exact hst

/-- Witness for the amended C4: concrete instances of all three parts. -/
theorem streak_invariant_amended_witness :
    ((updateStreak "Wed Jan 03 2024" "Tue Jan 02 2024"
        { currentStreak := 2, longestStreak := 4,
          lastCheckIn := some "Sun Dec 31 2023" }).longestStreak ≥
      (updateStreak "Wed Jan 03 2024" "Tue Jan 02 2024"
        { currentStreak := 2, longestStreak := 4,
          lastCheckIn := some "Sun Dec 31 2023" }).currentStreak) ∧
    ((clearAllData initialStore).streakData.longestStreak ≥
      (clearAllData initialStore).streakData.currentStreak) ∧
    ((importData
        (some
          { version := some "1.0", exportDate := some "2024-01-01T00:00:00.000Z",
            streakData := some { currentStreak := 1, longestStreak := 3, lastCheckIn := none } })
        initialStore).2.streakData.longestStreak ≥
      (importData
        (some
          { version := some "1.0", exportDate := some "2024-01-01T00:00:00.000Z",
            streakData := some { currentStreak := 1, longestStreak := 3, lastCheckIn := none } })
        initialStore).2.streakData.currentStreak) := by
  refine ⟨?_, ?_, ?_⟩
  · exact (streak_invariant_amended "Wed Jan 03 2024" "Tue Jan 02 2024"
      { currentStreak := 2, longestStreak := 4, lastCheckIn := some "Sun Dec 31 2023" }
      {} initialStore).1 (by decide)
  · exact (streak_invariant_amended "d" "d" initialStreak {} initialStore).2.1
  · exact (streak_invariant_amended "d" "d" initialStreak
      { version := some "1.0", exportDate := some "2024-01-01T00:00:00.000Z",
        streakData := some { currentStreak := 1, longestStreak := 3, lastCheckIn := none } }
      initialStore).2.2 (by decide)
      (fun sd2 hsd => by
        simp only [Option.some.injEq] at hsd
        rw [← hsd]
        decide)

/-- C6: importing the bundle produced by `exportAllData` restores every
collection and singleton to its state at export time (stated against an
arbitrary target store: the import rebuilds the exported state
wholesale).  The JSON stringify/parse pair of the source round-trips the
bundle data and is modelled as the identity on the parsed form. -/
theorem export_import_round_trip (st target : Store) (exportDate : String)
    (hd : exportDate ≠ "") :
    importData (some (exportAllData exportDate st)) target = (true, st) := by
  have hb : truthyStr (some exportDate) = true := by
    simp [truthyStr, hd]
  simp only [importData, exportAllData]
  rw [if_pos (by simp [truthyStr, hd])]
  simp

/-- Witness for C6 on a store with one entry in each collection and a
different target store. -/
theorem export_import_round_trip_witness :
    importData
      (some (exportAllData "2024-05-06T07:08:09.000Z"
        { chatHistory := [{ id := "m1", sender := some "user",
                            text := some "hello there", timestamp := "t1" }],
          moodData := [{ id := "e1", mood := some 4, notes := some "fine",
                         timestamp := "t2", date := "Mon May 06 2024" }],
          checkIns := [{ id := "c1", dayRating := some 5,
                         positiveThings := some "sun", challenges := none,
                         gratitude := none, tomorrowFocus := none,
                         timestamp := "t3", date := "Mon May 06 2024" }],
          preferences := { dailyReminders := false, moodReminders := true,
                           theme := "dark", notifications := false },
          streakData := { currentStreak := 2, longestStreak := 6,
                          lastCheckIn := some "Mon May 06 2024" } }))
      initialStore =
    (true,
      { chatHistory := [{ id := "m1", sender := some "user",
                          text := some "hello there", timestamp := "t1" }],
        moodData := [{ id := "e1", mood := some 4, notes := some "fine",
                       timestamp := "t2", date := "Mon May 06 2024" }],
        checkIns := [{ id := "c1", dayRating := some 5,
                       positiveThings := some "sun", challenges := none,
                       gratitude := none, tomorrowFocus := none,
                       timestamp := "t3", date := "Mon May 06 2024" }],
        preferences := { dailyReminders := false, moodReminders := true,
                         theme := "dark", notifications := false },
        streakData := { currentStreak := 2, longestStreak := 6,
                        lastCheckIn := some "Mon May 06 2024" } }) :=
  export_import_round_trip
    { chatHistory := [{ id := "m1", sender := some "user",
                        text := some "hello there", timestamp := "t1" }],
      moodData := [{ id := "e1", mood := some 4, notes := some "fine",
                     timestamp := "t2", date := "Mon May 06 2024" }],
      checkIns := [{ id := "c1", dayRating := some 5,
                     positiveThings := some "sun", challenges := none,
                     gratitude := none, tomorrowFocus := none,
                     timestamp := "t3", date := "Mon May 06 2024" }],
      preferences := { dailyReminders := false, moodReminders := true,
                       theme := "dark", notifications := false },
      streakData := { currentStreak := 2, longestStreak := 6,
                      lastCheckIn := some "Mon May 06 2024" } }
    initialStore "2024-05-06T07:08:09.000Z" (by decide)

/-- C7: `importData` rejects atomically — malformed JSON (a parse
failure) and a parsed document whose `version` or `exportDate` field is
missing (or empty) both return `false` and leave the whole store
unmodified. -/
theorem import_rejects (st : Store) (b : Bundle)
    (hbad : truthyStr b.version = false ∨ truthyStr b.exportDate = false) :
    importData none st = (false, st) ∧
    importData (some b) st = (false, st) := by
  refine ⟨rfl, ?_⟩
  simp only [importData]
  rcases hbad with h | h
  · rw [if_neg (by simp [h])]
  · rw [if_neg (by simp [h])]

/-- Witness for C7: the parse of `'{"foo":1}'` is a bundle with every
recognized field absent; importing it into the freshly initialized store
fails and changes nothing, as does malformed JSON. -/
theorem import_rejects_witness :
    importData none initialStore = (false, initialStore) ∧
    importData (some {}) initialStore = (false, initialStore) :=
  import_rejects initialStore {} (Or.inl rfl)

/-- C9 counterexample: the spread in
`{id: this.generateId(), ...moodData, timestamp, date}` places the
caller's fields after the generated `id`, so a caller-supplied `id` is
stored, not the freshly generated one. -/
theorem addMoodEntry_id_counterexample :
    ((addMoodEntry "generated-id" "2024-01-02T03:04:05.000Z" "Tue Jan 02 2024"
        { mood := some 3, id := some "caller-id" } initialStore).1).id =
      "caller-id" ∧
    "caller-id" ≠ "generated-id" :=
  ⟨rfl, by decide⟩

/-- C9 (amended): `addMoodEntry` validates nothing — every input object,
including one whose `mood` is outside `[1, 5]` or absent, is appended to
the mood collection with freshly generated `timestamp` and `date`
overriding any caller-supplied ones, while a caller-supplied `id`
overrides the generated one; the appended entry participates in
`getMoodStats`' average, best and worst (each is computed over the mood
list extended with the entry's `mood`, and `totalDays` counts it); and
`validateMoodData` (which would reject such inputs) is invoked by no
store operation. -/
theorem addMoodEntry_no_validation (genId now today : String)
    (inp : MoodInput) (st : Store) :
    (addMoodEntry genId now today inp st).2.moodData =
      st.moodData ++ [{ id := inp.id.getD genId, mood := inp.mood,
                        notes := inp.notes, timestamp := now, date := today }] ∧
    (addMoodEntry genId now today inp st).1 =
      { id := inp.id.getD genId, mood := inp.mood, notes := inp.notes,
        timestamp := now, date := today } ∧
    (addMoodEntry genId now today inp st).2.chatHistory = st.chatHistory ∧
    (addMoodEntry genId now today inp st).2.checkIns = st.checkIns ∧
    (addMoodEntry genId now today inp st).2.preferences = st.preferences ∧
    (addMoodEntry genId now today inp st).2.streakData = st.streakData ∧
    (getMoodStats (addMoodEntry genId now today inp st).2.moodData).totalDays =
      st.moodData.length + 1 ∧
    (getMoodStats (addMoodEntry genId now today inp st).2.moodData).average =
      jround1 (jdivNat (jsum (st.moodData.map (fun e => e.mood) ++ [inp.mood]))
        (st.moodData.length + 1)) ∧
    (getMoodStats (addMoodEntry genId now today inp st).2.moodData).best =
      jmaxList (st.moodData.map (fun e => e.mood) ++ [inp.mood]) ∧
    (getMoodStats (addMoodEntry genId now today inp st).2.moodData).worst =
      jminList (st.moodData.map (fun e => e.mood) ++ [inp.mood]) ∧
    validateMoodData { mood := some 7 } = false ∧
    validateMoodData ({} : MoodInput) = false := by
  have hne : ¬(((addMoodEntry genId now today inp st).2.moodData).length = 0) := by
    simp [addMoodEntry]
  have hmoods : ((addMoodEntry genId now today inp st).2.moodData).map (fun e => e.mood) =
      st.moodData.map (fun e => e.mood) ++ [inp.mood] := by
    simp [addMoodEntry]
  refine ⟨rfl, rfl, rfl, rfl, rfl, rfl, ?_, ?_, ?_, ?_, by decide, rfl⟩
  · unfold getMoodStats
    rw [if_neg hne]
    simp [addMoodEntry]
  · unfold getMoodStats
    rw [if_neg hne, hmoods]
    simp [List.length_append, List.length_map]
  · unfold getMoodStats
    rw [if_neg hne, hmoods]
  · unfold getMoodStats
    rw [if_neg hne, hmoods]

/-- Folding JavaScript `+` over all-present values is exact addition. -/
theorem foldl_jadd_some (l : List JNum) :
    ∀ a : ℚ, (∀ x ∈ l, x.isSome = true) →
      l.foldl jadd (some a) = some (a + (l.filterMap id).sum) := by
  induction l with
  | nil => intro a _; simp
  | cons x xs ih =>
    intro a h
    cases x with
    | none => exact absurd (h none (by simp)) (by simp)
    | some v =>
      have hxs : ∀ y ∈ xs, y.isSome = true := fun y hy => h y (by simp [hy])
      simp only [List.foldl_cons]
      rw [show jadd (some a) (some v) = some (a + v) from rfl, ih (a + v) hxs]
      simp [List.filterMap_cons]
      ring

/-- `reduce((sum, mood) => sum + mood, 0)` over all-present values. -/
theorem jsum_eq_sum {l : List JNum} (h : ∀ x ∈ l, x.isSome = true) :
    jsum l = some ((l.filterMap id).sum) := by
  unfold jsum
  rw [foldl_jadd_some l 0 h]
  simp

/-- Under all-present values no element is dropped. -/
theorem filterMap_id_length {l : List JNum} (h : ∀ x ∈ l, x.isSome = true) :
    (l.filterMap id).length = l.length := by
  induction l with
  | nil => rfl
  | cons x xs ih =>
    cases x with
    | none => exact absurd (h none (by simp)) (by simp)
    | some v =>
      simp [List.filterMap_cons, ih (fun y hy => h y (by simp [hy]))]

/-- The `recentTrend` field of `getMoodStats`, unfolded. -/
theorem getMoodStats_recentTrend_eq (l : List MoodEntry) :
    (getMoodStats l).recentTrend =
      (if l.length = 0 then "stable"
       else
        if 3 ≤ ((l.drop (l.length - 7)).map (fun e => e.mood)).length ∧
            3 ≤ (((l.take (l.length - 7)).drop (l.length - 14)).map (fun e => e.mood)).length then
          if jgtBool
              (jdivNat (jsum ((l.drop (l.length - 7)).map (fun e => e.mood)))
                ((l.drop (l.length - 7)).map (fun e => e.mood)).length)
              (jadd
                (jdivNat (jsum (((l.take (l.length - 7)).drop (l.length - 14)).map (fun e => e.mood)))
                  (((l.take (l.length - 7)).drop (l.length - 14)).map (fun e => e.mood)).length)
                (some (1 / 2))) then "improving"
          else
            if jltBool
                (jdivNat (jsum ((l.drop (l.length - 7)).map (fun e => e.mood)))
                  ((l.drop (l.length - 7)).map (fun e => e.mood)).length)
                (jsub
                  (jdivNat (jsum (((l.take (l.length - 7)).drop (l.length - 14)).map (fun e => e.mood)))
                    (((l.take (l.length - 7)).drop (l.length - 14)).map (fun e => e.mood)).length)
                  (some (1 / 2))) then "declining"
            else "stable"
        else "stable") := by
  by_cases hz : l.length = 0
  · unfold getMoodStats
    rw [if_pos hz, if_pos hz]
  · unfold getMoodStats
    rw [if_neg hz, if_neg hz]

/-- C5: `recentTrend` compares the mean of the last 7 entries (by
insertion order) with the mean of the preceding 7: `improving` when the
recent mean exceeds the previous one by more than `0.5`, `declining`
when lower by more than `0.5`, `stable` otherwise — defaulting to
`stable` whenever either window holds fewer than 3 entries; in
particular, any 2-entry history is `stable` regardless of values. -/
theorem moodStats_trend (l : List MoodEntry) :
    (((l.drop (l.length - 7)).length < 3 ∨
      ((l.take (l.length - 7)).drop (l.length - 14)).length < 3) →
      (getMoodStats l).recentTrend = "stable") ∧
    (l.length = 2 → (getMoodStats l).recentTrend = "stable") ∧
    (3 ≤ (l.drop (l.length - 7)).length →
      3 ≤ ((l.take (l.length - 7)).drop (l.length - 14)).length →
      (∀ e ∈ l, e.mood.isSome = true) →
      (getMoodStats l).recentTrend =
        (if qmean (moodVals ((l.take (l.length - 7)).drop (l.length - 14))) + 1 / 2 <
            qmean (moodVals (l.drop (l.length - 7))) then "improving"
         else
          if qmean (moodVals (l.drop (l.length - 7))) <
              qmean (moodVals ((l.take (l.length - 7)).drop (l.length - 14))) - 1 / 2 then
            "declining"
          else "stable")) := by
  have hA : ((l.drop (l.length - 7)).length < 3 ∨
      ((l.take (l.length - 7)).drop (l.length - 14)).length < 3) →
      (getMoodStats l).recentTrend = "stable" := by
    intro h
    rw [getMoodStats_recentTrend_eq]
    by_cases hz : l.length = 0
    · rw [if_pos hz]
    · rw [if_neg hz, if_neg (by simp only [List.length_map]; omega)]
  refine ⟨hA, ?_, ?_⟩
  · intro hl
    apply hA
    left
    have h7 : l.length - 7 = 0 := by omega
    rw [h7, List.drop_zero, hl]
    omega
  · intro hr hp hnum
    have h1 : ∀ x ∈ (l.drop (l.length - 7)).map (fun e => e.mood),
        x.isSome = true := by
      intro x hx
      obtain ⟨e, he, rfl⟩ := List.mem_map.mp hx
      exact hnum e (List.drop_subset _ _ he)
    have h2 : ∀ x ∈ ((l.take (l.length - 7)).drop (l.length - 14)).map (fun e => e.mood),
        x.isSome = true := by
      intro x hx
      obtain ⟨e, he, rfl⟩ := List.mem_map.mp hx
      exact hnum e (List.take_subset _ _ (List.drop_subset _ _ he))
    have hfm1 : ((l.drop (l.length - 7)).map (fun e => e.mood)).filterMap id =
        moodVals (l.drop (l.length - 7)) := by
      rw [List.filterMap_map]
      rfl
    have hfm2 : (((l.take (l.length - 7)).drop (l.length - 14)).map (fun e => e.mood)).filterMap id =
        moodVals ((l.take (l.length - 7)).drop (l.length - 14)) := by
      rw [List.filterMap_map]
      rfl
    have hsum1 : jsum ((l.drop (l.length - 7)).map (fun e => e.mood)) =
        some ((moodVals (l.drop (l.length - 7))).sum) := by
      rw [jsum_eq_sum h1, hfm1]
    have hsum2 : jsum (((l.take (l.length - 7)).drop (l.length - 14)).map (fun e => e.mood)) =
        some ((moodVals ((l.take (l.length - 7)).drop (l.length - 14))).sum) := by
      rw [jsum_eq_sum h2, hfm2]
    have hlen1 : (moodVals (l.drop (l.length - 7))).length =
        ((l.drop (l.length - 7)).map (fun e => e.mood)).length := by
      rw [← hfm1, filterMap_id_length h1]
    have hlen2 : (moodVals ((l.take (l.length - 7)).drop (l.length - 14))).length =
        (((l.take (l.length - 7)).drop (l.length - 14)).map (fun e => e.mood)).length := by
      rw [← hfm2, filterMap_id_length h2]
    have hz : ¬(l.length = 0) := by
      rw [List.length_drop] at hr
      omega
    rw [getMoodStats_recentTrend_eq, if_neg hz,
      if_pos (by simp only [List.length_map]; exact ⟨hr, hp⟩)]
    rw [hsum1, hsum2]
    unfold jdivNat jadd jsub jgtBool jltBool qmean
    simp only [Option.map_some', List.length_map, hlen1, hlen2,
      decide_eq_true_eq]

/-- Witness for C5: two entries of extreme values are `stable`; ten
entries whose window means are 3.0 and 4.0 are `improving`. -/
theorem moodStats_trend_witness :
    (getMoodStats sampleTwoEntries).recentTrend = "stable" ∧
    (getMoodStats sampleTenEntries).recentTrend = "improving" := by
  constructor
  · exact (moodStats_trend sampleTwoEntries).2.1 rfl
  · rw [(moodStats_trend sampleTenEntries).2.2 (by decide) (by decide) (by decide)]
    have e1 : moodVals (List.drop (sampleTenEntries.length - 7) sampleTenEntries) =
        [4, 4, 4, 4, 4, 4, 4] := rfl
    have e2 : moodVals (List.drop (sampleTenEntries.length - 14)
        (List.take (sampleTenEntries.length - 7) sampleTenEntries)) = [3, 3, 3] := rfl
    rw [e1, e2]
    norm_num [qmean, List.sum_cons, List.sum_nil]
